import Mathlib

/-!
Verification of the damage-report / severity logic and the bounding-box
normalization of the car-photo-app repository
(`vehicle_detection/inference.py` and `vehicle_detection/convert_to_yolo.py`),
shallowly embedded in Lean 4.

Modelling conventions:
  * Python floats are modelled as exact rationals (ℚ).
  * A detection record `{'type': ..., 'confidence': ..., 'bbox': ...}` is the
    structure `Detection`.
  * The Python dict `damage_summary` (string keys, insertion-ordered, unique
    keys) is modelled as an association list `List (String × Nat)` updated by
    `summary_add`, which bumps the entry of an existing key in place and
    appends a fresh key at the end — exactly the dict update
    `summary[t] = summary.get(t, 0) + 1` performed by `generate_report`.
  * `convert_bbox_to_yolo` divides by the image width and height; in Python a
    zero divisor raises `ZeroDivisionError`, so the embedding returns
    `Option`, with `none` modelling the raise.  No other statement of the
    function can fail.
-/

/-- A single damage detection as produced by `DamageDetector.detect_damage`:
a damage-type string, a confidence, and a pixel bounding box (x1, y1, x2, y2). -/
structure Detection where
  type : String
  confidence : ℚ
  bbox : ℚ × ℚ × ℚ × ℚ
deriving Repr, DecidableEq

/-- The damage types the severity assessment treats as severe
(`severe_damages` in `DamageDetector.assess_severity`). -/
def severe_damages : List String := ["broken_part", "glass_damage", "crack"]

/-- `sum(1 for d in damages if d['type'] in severe_damages)` from
`DamageDetector.assess_severity`. -/
def severe_count (damages : List Detection) : Nat :=
  damages.countP (fun d => decide (d.type ∈ severe_damages))

/-- `DamageDetector.assess_severity` from `vehicle_detection/inference.py`.
The local `avg_confidence` of the Python code is computed and never used,
kept here verbatim; the final `else` branch (`"No damage"`) is unreachable
because a non-empty list has length at least 1. -/
def assess_severity (damages : List Detection) : String :=
  if damages = [] then "No damage detected"
  else
    let total_damages := damages.length
    let avg_confidence : ℚ := (damages.map (fun d => d.confidence)).sum / (total_damages : ℚ)
    if 3 ≤ severe_count damages ∨ 5 ≤ total_damages then "Severe"
    else if 1 ≤ severe_count damages ∨ 3 ≤ total_damages then "Moderate"
    else if 1 ≤ total_damages then "Minor"
    else "No damage"

/-- One pass of the counting loop of `DamageDetector.generate_report`:
`if damage_type not in summary: summary[damage_type] = 0` followed by
`summary[damage_type] += 1`, on the association-list model of the dict. -/
def summary_add : List (String × Nat) → String → List (String × Nat)
  | [], t => [(t, 1)]
  | p :: rest, t => if p.1 = t then (p.1, p.2 + 1) :: rest else p :: summary_add rest t

/-- Reading a key of the `damage_summary` dict: the value stored at the first
(and, for dicts, only) entry with that key, or `none` when the key is absent. -/
def summary_lookup : List (String × Nat) → String → Option Nat
  | [], _ => none
  | p :: rest, t => if p.1 = t then some p.2 else summary_lookup rest t

/-- The sum of all counts stored in a `damage_summary` dict. -/
def summary_total : List (String × Nat) → Nat
  | [] => 0
  | p :: rest => p.2 + summary_total rest

/-- The `damage_summary` dict built by the counting loop of
`DamageDetector.generate_report`, starting from the empty dict. -/
def damage_summary (damages : List Detection) : List (String × Nat) :=
  damages.foldl (fun s d => summary_add s d.type) []

/-- The damage assessment report built by `DamageDetector.generate_report`. -/
structure Report where
  image : String
  total_damages : Nat
  damage_summary : List (String × Nat)
  detailed_damages : List Detection
  severity_assessment : String
deriving Repr, DecidableEq

/-- `DamageDetector.generate_report` from `vehicle_detection/inference.py`:
total count, per-type summary, the detections themselves, and the severity. -/
def generate_report (damages : List Detection) (image_path : String) : Report :=
  ⟨image_path, damages.length, damage_summary damages, damages, assess_severity damages⟩

/-- `VehiDEToYOLO.convert_bbox_to_yolo` from
`vehicle_detection/convert_to_yolo.py`: pixel box (x_min, y_min, x_max, y_max)
to normalized center form (x_center, y_center, width, height).  Python raises
`ZeroDivisionError` when `img_width` or `img_height` is zero (modelled as
`none`); any nonzero divisor, including a negative one, divides normally. -/
def convert_bbox_to_yolo (bbox : ℚ × ℚ × ℚ × ℚ) (img_width img_height : ℚ) :
    Option (ℚ × ℚ × ℚ × ℚ) :=
  let (x_min, y_min, x_max, y_max) := bbox
  let x_center := (x_min + x_max) / 2
  let y_center := (y_min + y_max) / 2
  let width := x_max - x_min
  let height := y_max - y_min
  if img_width = 0 ∨ img_height = 0 then none
  else some (x_center / img_width, y_center / img_height,
             width / img_width, height / img_height)

/-- Modelled from the spec: the inverse conversion of `BBoxNormalizer`
("converts an axis-aligned pixel bounding box into normalized center-form
coordinates and back"; "invertible given the same dimensions") has no
function under `src/` — only the forward direction
`convert_bbox_to_yolo` is present — so the denormalization is written
from the spec's formulas: x1 = (xc - w/2)·W, y1 = (yc - h/2)·H,
x2 = (xc + w/2)·W, y2 = (yc + h/2)·H. -/
def yolo_to_bbox (nb : ℚ × ℚ × ℚ × ℚ) (img_width img_height : ℚ) :
    ℚ × ℚ × ℚ × ℚ :=
  let (x_center, y_center, width, height) := nb
  ((x_center - width / 2) * img_width,
   (y_center - height / 2) * img_height,
   (x_center + width / 2) * img_width,
   (y_center + height / 2) * img_height)

/-- Rank of a severity label, for stating monotonicity of the tiers.
Labels are the strings returned by `assess_severity`; the spec names the
`"No damage detected"` label `NoDamage`. -/
def severity_rank (s : String) : Nat :=
  if s = "Severe" then 3
  else if s = "Moderate" then 2
  else if s = "Minor" then 1
  else 0

/-- A detection of type crack, used in concrete test inputs. -/
def crackD : Detection := ⟨"crack", 9/10, (0, 0, 1, 1)⟩

/-- A detection of type dent, used in concrete test inputs. -/
def dentD : Detection := ⟨"dent", 8/10, (2, 2, 3, 3)⟩

/-- A detection of type scratch, used in concrete test inputs. -/
def scratchD : Detection := ⟨"scratch", 7/10, (4, 4, 5, 5)⟩

/-- Helper: when no detection has a severe type, the severity depends only on
the tiered length thresholds. -/
lemma assess_severity_of_severe_count_zero (ds : List Detection)
    (h : severe_count ds = 0) :
    assess_severity ds =
      if 5 ≤ ds.length then "Severe"
      else if 3 ≤ ds.length then "Moderate"
      else if 1 ≤ ds.length then "Minor"
      else "No damage detected" := by
  by_cases hds : ds = []
  · simp [assess_severity, hds]
  · have h1 : 1 ≤ ds.length := List.length_pos.mpr hds
    simp [assess_severity, hds, h, h1]

/-- Helper: the rank of the severity label, for severe-free inputs, as a
function of the detection count alone. -/
lemma severity_rank_assess (ds : List Detection) (h : severe_count ds = 0) :
    severity_rank (assess_severity ds) =
      if 5 ≤ ds.length then 3
      else if 3 ≤ ds.length then 2
      else if 1 ≤ ds.length then 1
      else 0 := by
  rw [assess_severity_of_severe_count_zero ds h]
  split_ifs <;> simp [severity_rank]

/-- Claim C1: `assess_severity` follows the ordered first-match-wins rules:
empty input yields the no-damage label; otherwise severe_count ≥ 3 or
total ≥ 5 yields Severe; else severe_count ≥ 1 or total ≥ 3 yields Moderate;
else Minor (total ≥ 1 always holds for a non-empty list).  In particular one
crack detection yields Moderate and three crack detections yield Severe. -/
theorem assess_severity_rules :
    (∀ ds : List Detection,
      assess_severity ds =
        if ds = [] then "No damage detected"
        else if 3 ≤ severe_count ds ∨ 5 ≤ ds.length then "Severe"
        else if 1 ≤ severe_count ds ∨ 3 ≤ ds.length then "Moderate"
        else "Minor") ∧
    assess_severity [crackD] = "Moderate" ∧
    assess_severity [crackD, crackD, crackD] = "Severe" := by
  refine ⟨fun ds => ?_, by decide, by decide⟩
  by_cases h : ds = []
  · simp [assess_severity, h]
  · have h1 : 1 ≤ ds.length := List.length_pos.mpr h
    simp [assess_severity, h, h1]

/-- Claim C6: the severity assessment never fails: on every detection list
(any type strings, any confidences) `assess_severity` returns one of the four
labels, and on the empty list `generate_report` yields the report with zero
total damages, empty summary, no detailed damages, and the no-damage label
(which the spec names `NoDamage`). -/
theorem severity_never_fails :
    (∀ img : String,
      generate_report [] img = ⟨img, 0, [], [], "No damage detected"⟩) ∧
    (∀ ds : List Detection,
      assess_severity ds = "No damage detected" ∨ assess_severity ds = "Severe" ∨
      assess_severity ds = "Moderate" ∨ assess_severity ds = "Minor") := by
  refine ⟨fun img => rfl, fun ds => ?_⟩
  by_cases h : ds = []
  · simp [assess_severity, h]
  · have h1 : 1 ≤ ds.length := List.length_pos.mpr h
    simp only [assess_severity, if_neg h]
    split_ifs <;> simp

/-- Claim C7: for severe-free detection lists the severity is exactly tiered
by the total count (0 → no damage, 1–2 → Minor, 3–4 → Moderate, 5+ → Severe)
and is monotone non-decreasing in the total count. -/
theorem assess_severity_tiers_monotone :
    ∀ ds : List Detection, severe_count ds = 0 →
      ((ds.length = 0 → assess_severity ds = "No damage detected") ∧
       (1 ≤ ds.length ∧ ds.length ≤ 2 → assess_severity ds = "Minor") ∧
       (3 ≤ ds.length ∧ ds.length ≤ 4 → assess_severity ds = "Moderate") ∧
       (5 ≤ ds.length → assess_severity ds = "Severe")) ∧
      ∀ ds2 : List Detection, severe_count ds2 = 0 → ds.length ≤ ds2.length →
        severity_rank (assess_severity ds) ≤ severity_rank (assess_severity ds2) := by
  intro ds h
  refine ⟨⟨fun h0 => ?_, fun h12 => ?_, fun h34 => ?_, fun h5 => ?_⟩,
    fun ds2 h2 hlen => ?_⟩
  · rw [assess_severity_of_severe_count_zero ds h]
    simp [h0]
  · rw [assess_severity_of_severe_count_zero ds h]
    rw [if_neg (by omega), if_neg (by omega), if_pos (by omega)]
  · rw [assess_severity_of_severe_count_zero ds h]
    rw [if_neg (by omega), if_pos (by omega)]
  · rw [assess_severity_of_severe_count_zero ds h]
    rw [if_pos (by omega)]
  · rw [severity_rank_assess ds h, severity_rank_assess ds2 h2]
    split_ifs <;> omega

/-- Witness for C7 at concrete inputs: one dent is severe-free and Minor,
and the monotone part compares it with three dents (Moderate). -/
theorem assess_severity_tiers_monotone_w :
    severe_count [dentD] = 0 ∧ severe_count [dentD, dentD, dentD] = 0 ∧
    assess_severity [dentD] = "Minor" ∧
    severity_rank (assess_severity [dentD]) ≤
      severity_rank (assess_severity [dentD, dentD, dentD]) := by
  have h := assess_severity_tiers_monotone [dentD] (by decide)
  exact ⟨by decide, by decide, h.1.2.1 (by decide),
    h.2 [dentD, dentD, dentD] (by decide) (by decide)⟩

/-- Claim C8: `generate_report` is a pure function of the input detections
(the embedding has no mutation, matching the Python code, which only reads
`damages`), and the `detailed_damages` field of the report is exactly the
input list, same elements in the same order. -/
theorem report_carries_input :
    ∀ (ds : List Detection) (img : String),
      (generate_report ds img).detailed_damages = ds :=
  fun _ _ => rfl

/-- Claim C9: the severity depends only on the total count and the severe
count: two non-empty detection lists agreeing on both get the same label;
confidences and bounding boxes (and the computed-but-unused average
confidence) have no influence. -/
theorem assess_severity_depends_only_on_counts :
    ∀ ds1 ds2 : List Detection, ds1 ≠ [] → ds2 ≠ [] →
      ds1.length = ds2.length → severe_count ds1 = severe_count ds2 →
      assess_severity ds1 = assess_severity ds2 := by
  intro ds1 ds2 h1 h2 hlen hsev
  simp only [assess_severity, if_neg h1, if_neg h2]
  rw [hlen, hsev]

/-- Witness for C9: one dent with confidence 8/10 and one scratch with
confidence 7/10 agree on total = 1 and severe count = 0, hence get the same
label. -/
theorem assess_severity_depends_only_on_counts_w :
    [dentD] ≠ ([] : List Detection) ∧ [scratchD] ≠ ([] : List Detection) ∧
    assess_severity [dentD] = assess_severity [scratchD] :=
  ⟨by decide, by decide,
    assess_severity_depends_only_on_counts [dentD] [scratchD]
      (by decide) (by decide) (by decide) (by decide)⟩

/-- Helper: looking up the dict after one counting pass: the updated key gains
exactly 1 (a fresh key starts at 1), every other key is untouched. -/
lemma summary_lookup_add (s : List (String × Nat)) (t u : String) :
    summary_lookup (summary_add s t) u =
      if u = t then some ((summary_lookup s t).getD 0 + 1)
      else summary_lookup s u := by
  induction s with
  | nil =>
    by_cases hu : u = t
    · simp [summary_add, summary_lookup, hu]
    · simp [summary_add, summary_lookup, hu, Ne.symm hu]
  | cons p rest ih =>
    by_cases hp : p.1 = t
    · by_cases hu : u = t
      · simp [summary_add, summary_lookup, hp, hu]
      · have hpu : ¬p.1 = u := fun hc => hu (by rw [← hc]; exact hp)
        simp [summary_add, summary_lookup, hp, hu, hpu, Ne.symm hu]
    · by_cases hpu : p.1 = u
      · have hu : ¬u = t := fun hc => hp (hpu.trans hc)
        simp [summary_add, summary_lookup, hp, hpu, hu]
      · simp [summary_add, summary_lookup, hp, hpu, ih]

/-- Helper: running the counting loop over a detection list adds, for each
key, exactly the number of detections of that type to the dict. -/
lemma summary_lookup_foldl (t : String) (ds : List Detection) :
    ∀ s : List (String × Nat),
      summary_lookup (ds.foldl (fun acc d => summary_add acc d.type) s) t =
        if ds.countP (fun x => decide (x.type = t)) = 0 then summary_lookup s t
        else some ((summary_lookup s t).getD 0 +
          ds.countP (fun x => decide (x.type = t))) := by
  induction ds with
  | nil => intro s; simp
  | cons d ds ih =>
    intro s
    rw [List.foldl_cons, ih (summary_add s d.type), summary_lookup_add,
      List.countP_cons]
    by_cases hd : d.type = t
    · rw [if_pos hd.symm]
      by_cases hn : ds.countP (fun x => decide (x.type = t)) = 0
      · simp [hd, hn]
      · simp [hd, hn]
        omega
    · have hdt : ¬t = d.type := fun hc => hd hc.symm
      rw [if_neg hdt]
      simp [hd]

/-- Helper: one counting pass raises the sum of all stored counts by one. -/
lemma summary_total_add (s : List (String × Nat)) (t : String) :
    summary_total (summary_add s t) = summary_total s + 1 := by
  induction s with
  | nil => simp [summary_add, summary_total]
  | cons p rest ih =>
    by_cases hp : p.1 = t
    · simp [summary_add, summary_total, hp]
      omega
    · simp [summary_add, summary_total, hp, ih]
      omega

/-- Helper: running the counting loop over a detection list raises the sum of
all stored counts by the length of the list. -/
lemma summary_total_foldl (ds : List Detection) :
    ∀ s : List (String × Nat),
      summary_total (ds.foldl (fun acc d => summary_add acc d.type) s) =
        summary_total s + ds.length := by
  induction ds with
  | nil => intro s; simp
  | cons d ds ih =>
    intro s
    rw [List.foldl_cons, ih (summary_add s d.type), summary_total_add]
    simp
    omega

/-- Claim C5: the `damage_summary` of a report maps each type to the exact
number of detections of that type, and a type with no occurrence has no
entry at all: looking it up yields `none`, not `some 0`.  Concretely, two
dents and one scratch summarize to `[("dent", 2), ("scratch", 1)]`, with no
"rust" entry. -/
theorem damage_summary_counts :
    (∀ (ds : List Detection) (img t : String),
      summary_lookup ((generate_report ds img).damage_summary) t =
        if ds.countP (fun x => decide (x.type = t)) = 0 then none
        else some (ds.countP (fun x => decide (x.type = t)))) ∧
    (generate_report [dentD, dentD, scratchD] "img.jpg").damage_summary =
      [("dent", 2), ("scratch", 1)] ∧
    summary_lookup
      ((generate_report [dentD, dentD, scratchD] "img.jpg").damage_summary)
      "rust" = none := by
  refine ⟨fun ds img t => ?_, by decide, by decide⟩
  show summary_lookup (damage_summary ds) t = _
  rw [damage_summary, summary_lookup_foldl]
  simp [summary_lookup]

/-- Claim C10: in every report, the sum of the counts stored in
`damage_summary` equals `total_damages`, which equals the length of
`detailed_damages`, which equals the length of the input detection list. -/
theorem report_count_invariant :
    ∀ (ds : List Detection) (img : String),
      summary_total ((generate_report ds img).damage_summary) =
        (generate_report ds img).total_damages ∧
      (generate_report ds img).total_damages =
        (generate_report ds img).detailed_damages.length ∧
      (generate_report ds img).detailed_damages.length = ds.length := by
  intro ds img
  refine ⟨?_, rfl, rfl⟩
  show summary_total (damage_summary ds) = ds.length
  rw [damage_summary, summary_total_foldl]
  simp [summary_total]

/-- Claim C2: for positive image dimensions, `convert_bbox_to_yolo` returns
exactly the center-form formula (((x1+x2)/2)/W, ((y1+y2)/2)/H, (x2-x1)/W,
(y2-y1)/H) for every input box — no clamping, so out-of-range input
propagates through the same formula; for a well-formed box fully inside the
image all four outputs lie in [0, 1]; and a zero-area box raises no error,
its normalized width or height being 0. -/
theorem convert_bbox_formula_and_range (x1 y1 x2 y2 W H : ℚ)
    (hW : 0 < W) (hH : 0 < H) :
    convert_bbox_to_yolo (x1, y1, x2, y2) W H =
      some (((x1 + x2) / 2) / W, ((y1 + y2) / 2) / H,
            (x2 - x1) / W, (y2 - y1) / H) ∧
    (0 ≤ x1 → x1 ≤ x2 → x2 ≤ W → 0 ≤ y1 → y1 ≤ y2 → y2 ≤ H →
      (0 ≤ ((x1 + x2) / 2) / W ∧ ((x1 + x2) / 2) / W ≤ 1) ∧
      (0 ≤ ((y1 + y2) / 2) / H ∧ ((y1 + y2) / 2) / H ≤ 1) ∧
      (0 ≤ (x2 - x1) / W ∧ (x2 - x1) / W ≤ 1) ∧
      (0 ≤ (y2 - y1) / H ∧ (y2 - y1) / H ≤ 1)) ∧
    (x1 = x2 → (x2 - x1) / W = 0) ∧
    (y1 = y2 → (y2 - y1) / H = 0) := by
  refine ⟨by simp [convert_bbox_to_yolo, hW.ne', hH.ne'],
    fun hx0 hx12 hxW hy0 hy12 hyH => ?_,
    fun h => by rw [h]; simp,
    fun h => by rw [h]; simp⟩
  refine ⟨⟨?_, ?_⟩, ⟨?_, ?_⟩, ⟨?_, ?_⟩, ⟨?_, ?_⟩⟩
  · exact div_nonneg (div_nonneg (by linarith) (by norm_num)) hW.le
  · rw [div_le_one hW]; linarith
  · exact div_nonneg (div_nonneg (by linarith) (by norm_num)) hH.le
  · rw [div_le_one hH]; linarith
  · exact div_nonneg (by linarith) hW.le
  · rw [div_le_one hW]; linarith
  · exact div_nonneg (by linarith) hH.le
  · rw [div_le_one hH]; linarith

/-- Witness for C2: the box (10, 20, 30, 40) in a 100 × 200 image normalizes
to (1/5, 3/20, 1/5, 1/10). -/
theorem convert_bbox_formula_and_range_w :
    convert_bbox_to_yolo (10, 20, 30, 40) 100 200 =
      some (1/5, 3/20, 1/5, 1/10) := by
  have h :=
    (convert_bbox_formula_and_range 10 20 30 40 100 200
      (by norm_num) (by norm_num)).1
  rw [h]
  norm_num

/-- Counterexample for C3: the claim says the conversion fails whenever
W ≤ 0 or H ≤ 0, but at the negative width W = -100 (≤ 0) the code divides
normally and returns a value — only a zero divisor raises. -/
theorem convert_bbox_negative_width_returns_value :
    convert_bbox_to_yolo (10, 20, 30, 40) (-100) 100 =
      some (-1/5, 3/10, -1/5, 1/5) ∧
    convert_bbox_to_yolo (10, 20, 30, 40) (-100) 100 ≠ none := by
  have h : convert_bbox_to_yolo (10, 20, 30, 40) (-100) 100 =
      some (-1/5, 3/10, -1/5, 1/5) := by
    norm_num [convert_bbox_to_yolo]
  exact ⟨h, by rw [h]; exact Option.some_ne_none _⟩

/-- Claim C3 (amended): `convert_bbox_to_yolo` fails (Python
`ZeroDivisionError`, the spec's InvalidDimension) exactly when W = 0 or
H = 0 — not for merely negative dimensions — and it performs no validation of
bbox ordering: for any nonzero dimensions it returns the formula value even
for a malformed box (x1 > x2 or y1 > y2), silently propagating non-physical
normalized values. -/
theorem convert_bbox_failure_iff (x1 y1 x2 y2 W H : ℚ) :
    (convert_bbox_to_yolo (x1, y1, x2, y2) W H = none ↔ W = 0 ∨ H = 0) ∧
    (W ≠ 0 → H ≠ 0 →
      convert_bbox_to_yolo (x1, y1, x2, y2) W H =
        some (((x1 + x2) / 2) / W, ((y1 + y2) / 2) / H,
              (x2 - x1) / W, (y2 - y1) / H)) := by
  by_cases hW : W = 0
  · simp [convert_bbox_to_yolo, hW]
  · by_cases hH : H = 0
    · simp [convert_bbox_to_yolo, hW, hH]
    · simp [convert_bbox_to_yolo, hW, hH]

/-- Witness for C3 (amended) at a malformed box with x1 > x2: no failure, and
the normalized width comes out negative (non-physical), uncaught. -/
theorem convert_bbox_failure_iff_w :
    convert_bbox_to_yolo (30, 20, 10, 40) 100 100 =
      some (1/5, 3/10, -1/5, 1/5) := by
  have h :=
    (convert_bbox_failure_iff 30 20 10 40 100 100).2 (by norm_num) (by norm_num)
  rw [h]
  norm_num

/-- Claim C4: normalizing a box fully inside an image of positive size and
denormalizing with the same dimensions recovers the original pixel box
exactly (the arithmetic is exact over ℚ). -/
theorem yolo_round_trip (x1 y1 x2 y2 W H : ℚ) (hW : 0 < W) (hH : 0 < H)
    (hx0 : 0 ≤ x1) (hx12 : x1 ≤ x2) (hxW : x2 ≤ W)
    (hy0 : 0 ≤ y1) (hy12 : y1 ≤ y2) (hyH : y2 ≤ H) :
    (convert_bbox_to_yolo (x1, y1, x2, y2) W H).map
      (fun nb => yolo_to_bbox nb W H) = some (x1, y1, x2, y2) := by
  simp [convert_bbox_to_yolo, yolo_to_bbox, hW.ne', hH.ne']
  refine ⟨?_, ?_, ?_, ?_⟩ <;> field_simp <;> ring

/-- Witness for C4: the box (10, 20, 30, 40) in a 100 × 200 image round-trips
to itself. -/
theorem yolo_round_trip_w :
    (convert_bbox_to_yolo (10, 20, 30, 40) 100 200).map
      (fun nb => yolo_to_bbox nb 100 200) = some (10, 20, 30, 40) :=
  yolo_round_trip 10 20 30 40 100 200 (by norm_num) (by norm_num) (by norm_num)
    (by norm_num) (by norm_num) (by norm_num) (by norm_num) (by norm_num)
